import Mathlib

/-
  Formal model of the particle / force-field simulation core of `muay.py`
  ("Particle Cosmos").  Real-valued program quantities (positions,
  velocities, sizes, energies, field strengths) are modelled as real
  numbers; Python integers are modelled as `Int` / `Nat`.  The randomness
  consumed when spawning particles or exploding shards is passed in
  explicitly as "draw" records, so every construction is a pure function
  of its random draws.  Attribute assignment on the slotted `Particle`
  class is modelled against the literal `__slots__` table of the source,
  returning `Except` exactly where Python raises `AttributeError`.
-/

namespace Muay

open Classical

/-- `WIDTH` from `muay.py`. -/
def WIDTH : ℝ := 1000

/-- `HEIGHT` from `muay.py`. -/
def HEIGHT : ℝ := 700

/-- `turbulence_strength` global from `muay.py`. -/
def turbulence_strength : ℝ := 0.3

/-- `turbulence_scale` global from `muay.py`. -/
def turbulence_scale : ℝ := 0.005

/-- The keys of the `PARTICLE_TYPES` table. -/
inductive ParticleKind
  | NORMAL
  | HEAVY
  | LIGHT
  | ENERGY
deriving DecidableEq

/-- `PARTICLE_TYPES[...]["mass"]`. -/
def kindMass : ParticleKind → ℝ
  | ParticleKind.NORMAL => 1.0
  | ParticleKind.HEAVY => 2.0
  | ParticleKind.LIGHT => 0.5
  | ParticleKind.ENERGY => 0.3

/-- `PARTICLE_TYPES[...]["color"]`. -/
def kindColor : ParticleKind → ℤ × ℤ × ℤ
  | ParticleKind.NORMAL => (100, 200, 255)
  | ParticleKind.HEAVY => (255, 150, 50)
  | ParticleKind.LIGHT => (150, 255, 100)
  | ParticleKind.ENERGY => (255, 100, 255)

/-- `PARTICLE_TYPES[...]["drag"]`. -/
def kindDrag : ParticleKind → ℝ
  | ParticleKind.NORMAL => 0.98
  | ParticleKind.HEAVY => 0.99
  | ParticleKind.LIGHT => 0.96
  | ParticleKind.ENERGY => 0.94

/-- The three `field_type` strings of `ForceField`. -/
inductive FieldType
  | gravity
  | repulsion
  | magnetic
deriving DecidableEq

/-- The `ForceField` class: position, strength, squared radii, type and
age-based lifetime. -/
structure ForceField where
  x : ℝ
  y : ℝ
  strength : ℝ
  radius_sq : ℝ
  field_type : FieldType
  age : ℕ
  max_age : ℕ
  active_radius_sq : ℝ

/-- `ForceField.__init__(x, y, strength, radius, field_type, duration)`. -/
def mkForceField (x y strength radius : ℝ) (t : FieldType) (duration : ℕ) :
    ForceField :=
  { x := x, y := y, strength := strength, radius_sq := radius * radius,
    field_type := t, age := 0, max_age := duration,
    active_radius_sq := (radius + 20) ^ 2 }

/-- `ForceField.update`: age the field by one step, and report whether it is
still alive (`self.age < self.max_age` after the increment).  The updated
field is returned alongside the boolean, standing for the mutation. -/
def ForceField.update (f : ForceField) : ForceField × Bool :=
  ({ f with age := f.age + 1 }, decide (f.age + 1 < f.max_age))

/-- `ForceField.is_near(x, y)`: cheap pre-test against the enlarged
`active_radius_sq`. -/
def ForceField.is_near (f : ForceField) (x y : ℝ) : Prop :=
  (x - f.x) * (x - f.x) + (y - f.y) * (y - f.y) < f.active_radius_sq

/-- The per-step field prune of the main loop,
`force_fields = [f for f in force_fields if f.update()]`: every field is
aged, and exactly those whose update reported them alive are retained (in
their updated state). -/
def pruneFields (l : List ForceField) : List ForceField :=
  l.filterMap (fun f =>
    if (ForceField.update f).2 then some (ForceField.update f).1 else none)

lemma mem_pruneFields (l : List ForceField) (f' : ForceField) :
    f' ∈ pruneFields l ↔ ∃ f ∈ l, ForceField.update f = (f', true) := by
  simp only [pruneFields, List.mem_filterMap]
  constructor
  · rintro ⟨f, hf, he⟩
    refine ⟨f, hf, ?_⟩
    by_cases hb : (ForceField.update f).2
    · rw [if_pos hb] at he
      have h1 : (ForceField.update f).1 = f' := Option.some_injective _ he
      exact Prod.ext h1 hb
    · rw [if_neg hb] at he
      exact absurd he (Option.noConfusion)
  · rintro ⟨f, hf, he⟩
    refine ⟨f, hf, ?_⟩
    have hb : (ForceField.update f).2 = true := by rw [he]
    rw [if_pos hb]
    rw [he]

lemma prune_iterate (x y s r : ℝ) (t : FieldType) (N k : ℕ) (hk : k < N) :
    pruneFields^[k] [mkForceField x y s r t N]
      = [{ mkForceField x y s r t N with age := k }] := by
  induction k with
  | zero =>
    simp [mkForceField]
  | succ k ih =>
    have hk' : k < N := Nat.lt_of_succ_lt hk
    rw [Function.iterate_succ_apply', ih hk']
    simp [pruneFields, ForceField.update, mkForceField, hk]

lemma prune_iterate_dead (x y s r : ℝ) (t : FieldType) (N : ℕ) (hN : 1 ≤ N) :
    pruneFields^[N] [mkForceField x y s r t N] = [] := by
  obtain ⟨M, rfl⟩ := Nat.exists_eq_add_of_le hN
  rw [Nat.add_comm, Function.iterate_succ_apply',
    prune_iterate x y s r t (M + 1) M (Nat.lt_succ_self M)]
  simp [pruneFields, ForceField.update, mkForceField]

/-- C5: a `ForceField` created with `max age = N ≥ 1` is alive for steps
`0 .. N-1` (after `k < N` update/prune rounds it is still in the live list)
and absent at step `N`; `ForceField.update` increments the age by exactly
one and returns `true` iff the new age is strictly below `max_age`; and the
per-step prune retains exactly the (aged) fields whose update returned
`true`. -/
theorem c5_forcefield_lifetime (x y s r : ℝ) (t : FieldType) (N : ℕ)
    (hN : 1 ≤ N) :
    (∀ f : ForceField, (ForceField.update f).1.age = f.age + 1 ∧
        ((ForceField.update f).2 = true ↔ f.age + 1 < f.max_age)) ∧
      (∀ (l : List ForceField) (f' : ForceField),
        f' ∈ pruneFields l ↔ ∃ f ∈ l, ForceField.update f = (f', true)) ∧
      (∀ k, k < N → pruneFields^[k] [mkForceField x y s r t N] ≠ []) ∧
      pruneFields^[N] [mkForceField x y s r t N] = [] := by
  refine ⟨?_, mem_pruneFields, ?_, prune_iterate_dead x y s r t N hN⟩
  · intro f
    exact ⟨rfl, by simp [ForceField.update]⟩
  · intro k hk
    rw [prune_iterate x y s r t N k hk]
    simp

/-- Witness for C5 at the default field duration `N = 120` of
`ForceField.__init__`. -/
theorem c5_forcefield_lifetime_witness :
    (1 ≤ 120) ∧
      ((∀ f : ForceField, (ForceField.update f).1.age = f.age + 1 ∧
          ((ForceField.update f).2 = true ↔ f.age + 1 < f.max_age)) ∧
        (∀ (l : List ForceField) (f' : ForceField),
          f' ∈ pruneFields l ↔ ∃ f ∈ l, ForceField.update f = (f', true)) ∧
        (∀ k, k < 120 →
          pruneFields^[k] [mkForceField 500 350 2 120 FieldType.gravity 120] ≠ []) ∧
        pruneFields^[120] [mkForceField 500 350 2 120 FieldType.gravity 120] = []) :=
  ⟨by decide,
    c5_forcefield_lifetime 500 350 2 120 FieldType.gravity 120 (by decide)⟩

/-- The `Particle` class state: one slot per name in `Particle.__slots__`
(the `type_data` dictionary reference is modelled as the `kind` it was
looked up from). -/
structure Particle where
  x : ℝ
  y : ℝ
  vx : ℝ
  vy : ℝ
  kind : ParticleKind
  mass : ℝ
  size : ℝ
  target_size : ℝ
  color : ℤ × ℤ × ℤ
  trail : List (ℝ × ℝ)
  max_trail : ℕ
  energy : ℝ
  max_energy : ℝ
  age : ℕ
  max_age : ℕ
  glow : ℝ
  merge_cooldown : ℤ
  charged : Bool
  charge : ℤ
  base_size : ℝ

/-- The random draws consumed by `Particle.__init__`: `random.uniform(-1,1)`
twice for the velocity, `random.uniform(2.0,5.0)` for the base size,
`random.randint(400,1200)` for the max age, the outcome of
`random.random() < 0.3` for the charged flag, and the outcome of
`random.choice([-1,1])` for the charge sign. -/
structure SpawnDraws where
  vx0 : ℝ
  vy0 : ℝ
  sizeDraw : ℝ
  maxAgeDraw : ℕ
  chargedDraw : Bool
  chargeDraw : Bool

/-- `Particle.__init__(x, y, particle_type)`, with the global
`particle_size_multiplier` passed in as `sizeMult` and the randomness as
`d`. -/
def mkParticle (x y : ℝ) (k : ParticleKind) (sizeMult : ℝ) (d : SpawnDraws) :
    Particle :=
  { x := x, y := y, vx := d.vx0, vy := d.vy0, kind := k, mass := kindMass k,
    base_size := d.sizeDraw * sizeMult, size := d.sizeDraw * sizeMult,
    target_size := d.sizeDraw * sizeMult, color := kindColor k, trail := [],
    max_trail := 6, energy := 100, max_energy := 100, age := 0,
    max_age := d.maxAgeDraw, glow := 0, merge_cooldown := 0,
    charged := d.chargedDraw,
    charge := if d.chargeDraw then 1 else -1 }

/-- One force field's contribution inside the field loop of
`Particle.update`: early-out on `is_near`, displacement to the field
center, squared distance clamped below at 1, skip at or beyond the literal
falloff boundary `radius_sq ** 0.5`, scalar force by field type, and the
acceleration `(d/distance) * force * 0.8` added to the velocity. -/
noncomputable def applyField (px py mass : ℝ) (charge : ℤ) (v : ℝ × ℝ)
    (f : ForceField) : ℝ × ℝ :=
  if ¬ f.is_near px py then v
  else
    let dx := f.x - px
    let dy := f.y - py
    let dsq0 := dx * dx + dy * dy
    let dsq := if dsq0 < 1 then 1 else dsq0
    let distance := Real.sqrt dsq
    if Real.sqrt f.radius_sq ≤ distance then v
    else
      let force :=
        match f.field_type with
        | FieldType.gravity => f.strength * mass / distance
        | FieldType.repulsion => -f.strength * mass / distance
        | FieldType.magnetic => f.strength * (charge : ℝ) / distance
      (v.1 + dx / distance * force * 0.8, v.2 + dy / distance * force * 0.8)

/-- The speed limit of `Particle.update`: if the squared speed exceeds 225
the velocity is rescaled by `15 / sqrt(speed_sq)`. -/
noncomputable def clampSpeed (v : ℝ × ℝ) : ℝ × ℝ :=
  if 225 < v.1 * v.1 + v.2 * v.2 then
    (v.1 * (15 / Real.sqrt (v.1 * v.1 + v.2 * v.2)),
     v.2 * (15 / Real.sqrt (v.1 * v.1 + v.2 * v.2)))
  else v

/-- One axis of the bounds handling of `Particle.update`: outside `[0,
bound]` the velocity component is multiplied by `-0.6` and the position is
clamped back into range.  Returns (position, velocity). -/
noncomputable def bounce (bound pos v : ℝ) : ℝ × ℝ :=
  if pos < 0 ∨ bound < pos then (max 0 (min bound pos), v * (-0.6))
  else (pos, v)

/-- Python `int(...)` truncation toward zero on a real value. -/
noncomputable def pyInt (r : ℝ) : ℤ := if r < 0 then ⌈r⌉ else ⌊r⌋

/-- `Particle.update(force_fields, particles, dt)` (the `particles` and
`dt` arguments are unused by the source).  The global `turbulence_active`
flag is passed in as `turb`.  Returns the updated particle together with
the removal flag `self.age > self.max_age or self.energy <= 0`. -/
noncomputable def Particle.update (p : Particle) (force_fields : List ForceField)
    (turb : Bool) : Particle × Bool :=
  let age := p.age + 1
  let mc := if 0 < p.merge_cooldown then p.merge_cooldown - 1 else p.merge_cooldown
  let t1 := p.trail ++ [(p.x, p.y)]
  let trail := if p.max_trail < t1.length then t1.tail else t1
  let v0 : ℝ × ℝ :=
    if turb then
      (p.vx + Real.sin (p.x * turbulence_scale + (age : ℝ) * 0.02) * turbulence_strength,
       p.vy + Real.cos (p.y * turbulence_scale + (age : ℝ) * 0.02) * turbulence_strength)
    else (p.vx, p.vy)
  let v1 := force_fields.foldl (applyField p.x p.y p.mass p.charge) v0
  let v2 : ℝ × ℝ := (v1.1 * kindDrag p.kind, v1.2 * kindDrag p.kind)
  let v3 := clampSpeed v2
  let bx := bounce WIDTH (p.x + v3.1 * 2) v3.1
  let bw := bounce HEIGHT (p.y + v3.2 * 2) v3.2
  let size1 := p.size + (p.target_size - p.size) * 0.1
  let energyFrac := p.energy / p.max_energy
  let color1 : ℤ × ℤ × ℤ :=
    (min 255 (pyInt (100 + 155 * energyFrac)),
     min 255 (pyInt (150 + 100 * energyFrac)),
     min 255 (pyInt (100 + 155 * (1 - energyFrac))))
  let glow1 := if 80 < p.energy then p.glow + 0.5 else max 0 (p.glow - 0.3)
  let target1 :=
    if p.energy < 20 then max 1 (p.base_size * 0.7)
    else if 80 < p.energy then min (p.base_size * 2) (size1 * 1.01)
    else p.base_size
  ({ x := bx.1, y := bw.1, vx := bx.2, vy := bw.2, kind := p.kind,
     mass := p.mass, size := size1, target_size := target1, color := color1,
     trail := trail, max_trail := p.max_trail, energy := p.energy,
     max_energy := p.max_energy, age := age, max_age := p.max_age,
     glow := glow1, merge_cooldown := mc, charged := p.charged,
     charge := p.charge, base_size := p.base_size },
   decide (p.max_age < age ∨ p.energy ≤ 0))

/-- Iterated simulation steps of a single particle: `stepParticle fs tb n p`
is `p` after `n` per-frame updates, the step numbered `i` using the live
field list `fs i` and turbulence flag `tb i`. -/
noncomputable def stepParticle (fs : ℕ → List ForceField) (tb : ℕ → Bool) :
    ℕ → Particle → Particle
  | 0, p => p
  | n + 1, p => ((stepParticle fs tb n p).update (fs n) (tb n)).1

/-- The literal `Particle.__slots__` tuple of `muay.py` (lines 92-94). -/
def particleSlots : List String :=
  ["x", "y", "vx", "vy", "type_data", "mass", "size", "target_size", "color",
   "trail", "max_trail", "energy", "max_energy", "age", "max_age", "glow",
   "merge_cooldown", "charged", "charge", "base_size"]

/-- Python attribute assignment `p.<name> = ...` on the slotted `Particle`
class: it succeeds (performing `upd`) when `name` is one of the declared
slots and raises `AttributeError` (modelled as `Except.error name`)
otherwise. -/
def assignAttr (name : String) (upd : Particle → Particle) (p : Particle) :
    Except String Particle :=
  if name ∈ particleSlots then Except.ok (upd p) else Except.error name

/-- The per-channel color perturbation of `create_explosion_at`:
`min(255, channel + offset)` where `offset = random.randint(-30, 30)`. -/
def perturbChannel (c off : ℤ) : ℤ := min 255 (c + off)

/-- The random draws consumed for one shard of `create_explosion_at`:
the `Particle.__init__` draws plus `random.uniform(0, 2*pi)` for the angle,
`random.uniform(2.0, 6.0)` for the speed, `random.uniform(1.0, 2.0)` for
the size, three `random.randint(-30, 30)` color offsets and
`random.randint(40, 80)` for the max age. -/
structure ShardDraws where
  spawn : SpawnDraws
  angle : ℝ
  speed : ℝ
  sizeDraw : ℝ
  offR : ℤ
  offG : ℤ
  offB : ℤ
  maxAgeDraw : ℕ

/-- One iteration of the loop body of `create_explosion_at`: construct a
LIGHT particle at the source position and perform, in source order, the
attribute assignments `vx`, `vy`, `size`, `target_size`, `color`,
`max_age`, `energy` and `drag` on it.  The `sizeMult` argument is the
global `particle_size_multiplier` read by `Particle.__init__`. -/
noncomputable def makeShard (x y : ℝ) (color : ℤ × ℤ × ℤ) (sizeMult : ℝ)
    (d : ShardDraws) : Except String Particle :=
  let vx := Real.cos d.angle * d.speed
  let vy := Real.sin d.angle * d.speed
  let p0 := mkParticle x y ParticleKind.LIGHT sizeMult d.spawn
  Except.bind (assignAttr ("vx") (fun p => { p with vx := vx }) p0) (fun p1 =>
  Except.bind (assignAttr ("vy") (fun p => { p with vy := vy }) p1) (fun p2 =>
  Except.bind (assignAttr ("size") (fun p => { p with size := d.sizeDraw }) p2) (fun p3 =>
  Except.bind (assignAttr ("target_size") (fun p => { p with target_size := p.size }) p3) (fun p4 =>
  Except.bind (assignAttr ("color") (fun p =>
      { p with color := (perturbChannel color.1 d.offR,
          perturbChannel color.2.1 d.offG,
          perturbChannel color.2.2 d.offB) }) p4) (fun p5 =>
  Except.bind (assignAttr ("max_age") (fun p => { p with max_age := d.maxAgeDraw }) p5) (fun p6 =>
  Except.bind (assignAttr ("energy") (fun p => { p with energy := 50 }) p6) (fun p7 =>
  assignAttr ("drag") (fun p => p) p7)))))))

/-- `create_explosion_at(x, y, color, count)`: run the loop body once per
entry of `draws` (so `count = draws.length`), appending each completed
shard to the live particle list; a raised `AttributeError` propagates and
aborts the remaining iterations. -/
noncomputable def create_explosion_at (x y : ℝ) (color : ℤ × ℤ × ℤ)
    (sizeMult : ℝ) (draws : List ShardDraws) (particles : List Particle) :
    Except String (List Particle) :=
  match draws with
  | [] => Except.ok particles
  | d :: rest =>
    Except.bind (makeShard x y color sizeMult d)
      (fun p => create_explosion_at x y color sizeMult rest (particles ++ [p]))

lemma exBind_ok {α β : Type} (a : α) (g : α → Except String β) :
    Except.bind (Except.ok a) g = g a := rfl

lemma assignAttr_drag (upd : Particle → Particle) (p : Particle) :
    assignAttr ("drag") upd p = Except.error ("drag") := by
  rw [assignAttr, if_neg]
  decide

lemma assignAttr_ok (name : String) (upd : Particle → Particle) (p : Particle)
    (h : name ∈ particleSlots) : assignAttr name upd p = Except.ok (upd p) := by
  rw [assignAttr, if_pos h]

lemma makeShard_error (x y : ℝ) (color : ℤ × ℤ × ℤ) (sizeMult : ℝ)
    (d : ShardDraws) :
    makeShard x y color sizeMult d = Except.error ("drag") := by
  rw [makeShard]
  rw [assignAttr_ok _ _ _ (by decide), exBind_ok]
  rw [assignAttr_ok _ _ _ (by decide), exBind_ok]
  rw [assignAttr_ok _ _ _ (by decide), exBind_ok]
  rw [assignAttr_ok _ _ _ (by decide), exBind_ok]
  rw [assignAttr_ok _ _ _ (by decide), exBind_ok]
  rw [assignAttr_ok _ _ _ (by decide), exBind_ok]
  rw [assignAttr_ok _ _ _ (by decide), exBind_ok]
  exact assignAttr_drag _ _

/-- A concrete bundle of shard draws, used to evaluate the explosion
factory at a specific input. -/
def shardDrawsA : ShardDraws :=
  { spawn := { vx0 := 0.5, vy0 := -0.5, sizeDraw := 3,
               maxAgeDraw := 600, chargedDraw := false, chargeDraw := true },
    angle := 0, speed := 2, sizeDraw := 1.5, offR := -30, offG := 0,
    offB := 30, maxAgeDraw := 60 }

/-- C1: refuted as stated - the code raises.  Triggering an explosion via
`create_explosion_at` raises `AttributeError` on the assignment
`p.drag = 0.90`, because `"drag"` is not among `Particle.__slots__`:
evaluated at position (100, 100), source color (255, 255, 255) and
count 1, the call errors instead of completing normally. -/
theorem c1_explosion_raises :
    create_explosion_at 100 100 (255, 255, 255) 1 [shardDrawsA] []
        = Except.error ("drag") ∧ ("drag") ∉ particleSlots := by
  constructor
  · rw [create_explosion_at, makeShard_error]
    rfl
  · decide

/-- C2: refuted as stated - the code raises.  With `count = 15` the
Explosion Factory appends no particle at all: the first loop iteration
raises `AttributeError` at `p.drag = 0.90` (`"drag"` is missing from
`Particle.__slots__`), so the call evaluates to an error, not to a list
extended by 15 LIGHT shards. -/
theorem c2_explosion_count :
    create_explosion_at 500 350 (200, 200, 200) 1
        (List.replicate 15 shardDrawsA) [] = Except.error ("drag") := by
  rw [List.replicate, create_explosion_at, makeShard_error]
  rfl

/-- C4 counterexample: the shard color computation only clamps from above.
For source channel 0 and offset -30 (both in their legal ranges), the
computed channel is -30, which does not lie in [0, 255]. -/
theorem c4_color_counterexample :
    ¬ (0 ≤ perturbChannel 0 (-30) ∧ perturbChannel 0 (-30) ≤ 255) := by
  decide

/-- C4 (amended): each shard color channel is clamped to at most 255, but
there is no lower clamp; for a source channel in [0, 255] and an offset in
[-30, 30] the computed channel lies in [-30, 255]. -/
theorem c4_color_range (c off : ℤ) (h0 : 0 ≤ c) (h1 : c ≤ 255)
    (h2 : -30 ≤ off) (h3 : off ≤ 30) :
    -30 ≤ perturbChannel c off ∧ perturbChannel c off ≤ 255 := by
  unfold perturbChannel
  omega

/-- Witness for C4 (amended) at channel 10, offset 5. -/
theorem c4_color_range_witness :
    ((0 : ℤ) ≤ 10 ∧ (10 : ℤ) ≤ 255 ∧ (-30 : ℤ) ≤ 5 ∧ (5 : ℤ) ≤ 30) ∧
      (-30 ≤ perturbChannel 10 5 ∧ perturbChannel 10 5 ≤ 255) :=
  ⟨by decide, c4_color_range 10 5 (by decide) (by decide) (by decide) (by decide)⟩

/-- A LIGHT shard the way the explosion loop intends to configure one
(velocity (1, 0), small size, energy 50, short max-age), placed mid-screen
away from the walls. -/
def shard0 : Particle :=
  { x := 500, y := 350, vx := 1, vy := 0, kind := ParticleKind.LIGHT,
    mass := 0.5, size := 1.5, target_size := 1.5, color := (150, 255, 100),
    trail := [], max_trail := 6, energy := 50, max_energy := 100, age := 0,
    max_age := 60, glow := 0, merge_cooldown := 0, charged := false,
    charge := 1, base_size := 3 }

/-- C3: refuted as stated - `Particle.update` always multiplies the
velocity by the kind's `type_data["drag"]` coefficient; the per-shard
override `p.drag = 0.90` is never consulted (besides raising on creation).
For a LIGHT shard with velocity (1, 0), no force fields and turbulence
off, the post-update `vx` is `0.96 * vx` (the LIGHT coefficient), not
`0.90 * vx` as the claimed override would give. -/
theorem c3_drag_override_unused :
    ((shard0.update [] false).1).vx = 0.96 * shard0.vx ∧
      ((shard0.update [] false).1).vx ≠ 0.9 * shard0.vx := by
  have hvx : ((shard0.update [] false).1).vx = 0.96 := by
    simp only [Particle.update, shard0, List.foldl_nil, kindDrag, clampSpeed,
      bounce, WIDTH, HEIGHT]
    norm_num
  constructor
  · rw [hvx]
    norm_num [shard0]
  · rw [hvx]
    norm_num [shard0]

lemma clampSpeed_le (v : ℝ × ℝ) :
    (clampSpeed v).1 * (clampSpeed v).1 + (clampSpeed v).2 * (clampSpeed v).2
      ≤ 225 := by
  unfold clampSpeed
  by_cases h : 225 < v.1 * v.1 + v.2 * v.2
  · rw [if_pos h]
    dsimp only
    have h0 : 0 < v.1 * v.1 + v.2 * v.2 := by nlinarith
    have hq : Real.sqrt (v.1 * v.1 + v.2 * v.2) * Real.sqrt (v.1 * v.1 + v.2 * v.2)
        = v.1 * v.1 + v.2 * v.2 := Real.mul_self_sqrt h0.le
    have hkey : v.1 * (15 / Real.sqrt (v.1 * v.1 + v.2 * v.2)) *
          (v.1 * (15 / Real.sqrt (v.1 * v.1 + v.2 * v.2))) +
        v.2 * (15 / Real.sqrt (v.1 * v.1 + v.2 * v.2)) *
          (v.2 * (15 / Real.sqrt (v.1 * v.1 + v.2 * v.2)))
        = (v.1 * v.1 + v.2 * v.2) * (15 * 15) /
          (Real.sqrt (v.1 * v.1 + v.2 * v.2) * Real.sqrt (v.1 * v.1 + v.2 * v.2)) := by
      ring
    rw [hkey, hq, mul_comm, mul_div_assoc, div_self h0.ne', mul_one]
    norm_num
  · rw [if_neg h]
    linarith [not_lt.mp h]

lemma bounce_sq_le (bound pos v : ℝ) :
    (bounce bound pos v).2 * (bounce bound pos v).2 ≤ v * v := by
  unfold bounce
  by_cases h : pos < 0 ∨ bound < pos
  · rw [if_pos h]
    dsimp only
    nlinarith [mul_self_nonneg v]
  · rw [if_neg h]

lemma bounce_pair_le (x0 y0 : ℝ) (v : ℝ × ℝ)
    (hv : v.1 * v.1 + v.2 * v.2 ≤ 225) :
    (bounce WIDTH x0 v.1).2 * (bounce WIDTH x0 v.1).2 +
      (bounce HEIGHT y0 v.2).2 * (bounce HEIGHT y0 v.2).2 ≤ 225 := by
  have h1 := bounce_sq_le WIDTH x0 v.1
  have h2 := bounce_sq_le HEIGHT y0 v.2
  linarith

/-- C6: the speed-cap invariant.  For every particle, every list of live
force fields and either turbulence setting, immediately after one
`Particle.update` step the squared speed `vx² + vy²` of the result is at
most 225 (speed at most 15 units per step). -/
theorem c6_speed_cap (p : Particle) (fields : List ForceField) (turb : Bool) :
    ((p.update fields turb).1).vx * ((p.update fields turb).1).vx +
      ((p.update fields turb).1).vy * ((p.update fields turb).1).vy ≤ 225 := by
  simp only [Particle.update]
  exact bounce_pair_le _ _ _ (clampSpeed_le _)

/-- The strengthened per-particle shape invariant: non-negative current,
target and base sizes, and a trail within its capacity (which is 6 for
every particle the program creates). -/
def StrongInv (p : Particle) : Prop :=
  0 ≤ p.size ∧ 0 ≤ p.target_size ∧ 0 ≤ p.base_size ∧
    p.trail.length ≤ 6 ∧ p.max_trail = 6

lemma strongInv_update (p : Particle) (fields : List ForceField) (turb : Bool)
    (h : StrongInv p) : StrongInv ((p.update fields turb).1) := by
  obtain ⟨hs, ht, hb, htr, hmt⟩ := h
  have hsize : (0 : ℝ) ≤ p.size + (p.target_size - p.size) * 0.1 := by
    nlinarith
  refine ⟨?_, ?_, ?_, ?_, ?_⟩
  · simpa only [Particle.update] using hsize
  · simp only [Particle.update]
    split_ifs with h1 h2
    · have : (0 : ℝ) ≤ 1 := by norm_num
      exact this.trans (le_max_left 1 (p.base_size * 0.7))
    · exact le_min (by nlinarith) (by nlinarith)
    · exact hb
  · simpa only [Particle.update] using hb
  · simp only [Particle.update, hmt]
    split_ifs with h1
    · simp only [List.length_tail, List.length_append, List.length_cons,
        List.length_nil]
      omega
    · simp only [List.length_append, List.length_cons, List.length_nil] at h1 ⊢
      omega
  · simp only [Particle.update, hmt]

/-- C7 counterexample: the invariant pair `0 ≤ size ∧ trail.length ≤ 6` is
not, by itself, preserved by `Particle.update` from an arbitrary state
satisfying it: a particle with `size = 0` and `target_size = -100`
satisfies both, yet after one step its size is -10. -/
def pBad : Particle :=
  { x := 500, y := 350, vx := 0, vy := 0, kind := ParticleKind.NORMAL,
    mass := 1, size := 0, target_size := -100, color := (100, 200, 255),
    trail := [], max_trail := 6, energy := 50, max_energy := 100, age := 0,
    max_age := 600, glow := 0, merge_cooldown := 0, charged := false,
    charge := 1, base_size := 3 }

/-- C7 counterexample theorem: `pBad` satisfies `0 ≤ size ∧ trail.length ≤ 6`
but the state after one `Particle.update` step does not. -/
theorem c7_counterexample :
    (0 ≤ pBad.size ∧ pBad.trail.length ≤ 6) ∧
      ¬ (0 ≤ ((pBad.update [] false).1).size ∧
          ((pBad.update [] false).1).trail.length ≤ 6) := by
  constructor
  · exact ⟨by norm_num [pBad], by simp [pBad]⟩
  · intro hcontra
    have hsz : ((pBad.update [] false).1).size = -10 := by
      simp only [Particle.update, pBad]
      norm_num
    rw [hsz] at hcontra
    exact absurd hcontra.1 (by norm_num)

/-- C7 (amended): with the invariant strengthened to also require
`0 ≤ target_size` and `0 ≤ base_size` (which hold for every particle the
program creates), every `Particle.update` step preserves it, and after any
number of steps from a state satisfying it the particle's size is
non-negative and its trail holds at most 6 positions. -/
theorem c7_size_trail_invariant (fs : ℕ → List ForceField) (tb : ℕ → Bool)
    (p : Particle) (h : StrongInv p) (n : ℕ) :
    (0 ≤ (stepParticle fs tb n p).size ∧
        (stepParticle fs tb n p).trail.length ≤ 6) ∧
      StrongInv (stepParticle fs tb n p) := by
  have key : StrongInv (stepParticle fs tb n p) := by
    induction n with
    | zero => exact h
    | succ n ih => exact strongInv_update _ _ _ ih
  exact ⟨⟨key.1, key.2.2.2.1⟩, key⟩

/-- Field history and turbulence history used by witnesses: no live fields,
turbulence off. -/
def fsW : ℕ → List ForceField := fun _ => []

/-- Turbulence history used by witnesses. -/
def tbW : ℕ → Bool := fun _ => false

/-- A freshly spawned particle shape (as `Particle.__init__` produces, with
concrete draws), used by witnesses. -/
def pGood : Particle :=
  { x := 100, y := 100, vx := 0.5, vy := 0.5, kind := ParticleKind.NORMAL,
    mass := 1, size := 3, target_size := 3, color := (100, 200, 255),
    trail := [], max_trail := 6, energy := 100, max_energy := 100, age := 0,
    max_age := 600, glow := 0, merge_cooldown := 0, charged := false,
    charge := 1, base_size := 3 }

/-- Witness for C7 (amended): `pGood` satisfies the strengthened invariant
and the theorem applies to it after 4 steps. -/
theorem c7_size_trail_invariant_witness :
    StrongInv pGood ∧
      ((0 ≤ (stepParticle fsW tbW 4 pGood).size ∧
          (stepParticle fsW tbW 4 pGood).trail.length ≤ 6) ∧
        StrongInv (stepParticle fsW tbW 4 pGood)) := by
  have h : StrongInv pGood := by
    refine ⟨by norm_num [pGood], by norm_num [pGood], by norm_num [pGood],
      by simp [pGood], by simp [pGood]⟩
  exact ⟨h, c7_size_trail_invariant fsW tbW pGood h 4⟩

/-- C8: a GRAVITY field and a REPULSION field with equal strength and
equal position (and equal radius and duration) produce exactly
opposite-signed velocity contributions on an identical particle at the
same offset - componentwise, the gravity contribution is the negation of
the repulsion contribution (both are zero outside the falloff radius, so
this holds at every offset, in particular within it). -/
theorem c8_gravity_repulsion_opposite (x y s r : ℝ) (dur : ℕ)
    (px py m : ℝ) (c : ℤ) (v : ℝ × ℝ) :
    (applyField px py m c v (mkForceField x y s r FieldType.gravity dur)).1 - v.1
        = -((applyField px py m c v (mkForceField x y s r FieldType.repulsion dur)).1 - v.1) ∧
      (applyField px py m c v (mkForceField x y s r FieldType.gravity dur)).2 - v.2
        = -((applyField px py m c v (mkForceField x y s r FieldType.repulsion dur)).2 - v.2) := by
  simp only [applyField, mkForceField, ForceField.is_near]
  by_cases h1 : ¬ ((px - x) * (px - x) + (py - y) * (py - y) < (r + 20) ^ 2)
  · rw [if_pos h1, if_pos h1]
    constructor <;> ring
  · rw [if_neg h1, if_neg h1]
    by_cases h2 : Real.sqrt (r * r) ≤
        Real.sqrt (if (x - px) * (x - px) + (y - py) * (y - py) < 1 then 1
          else (x - px) * (x - px) + (y - py) * (y - py))
    · rw [if_pos h2, if_pos h2]
      constructor <;> ring
    · rw [if_neg h2, if_neg h2]
      dsimp only
      constructor <;> ring

/-- C9: `Particle.update` never modifies the energy field - after any
number of steps the energy equals the initial energy - and consequently a
particle with positive energy is only ever flagged for removal by the age
test: whenever its update returns `true`, the new age exceeds `max_age`. -/
theorem c9_energy_frame (fs : ℕ → List ForceField) (tb : ℕ → Bool)
    (p : Particle) (h : 0 < p.energy) (n : ℕ) :
    (stepParticle fs tb n p).energy = p.energy ∧
      (((stepParticle fs tb n p).update (fs n) (tb n)).2 = true →
        (stepParticle fs tb n p).max_age < (stepParticle fs tb n p).age + 1) := by
  have henergy : ∀ m, (stepParticle fs tb m p).energy = p.energy := by
    intro m
    induction m with
    | zero => rfl
    | succ m ih =>
      simpa only [stepParticle, Particle.update] using ih
  refine ⟨henergy n, ?_⟩
  intro hdead
  have hd : (stepParticle fs tb n p).max_age < (stepParticle fs tb n p).age + 1
      ∨ (stepParticle fs tb n p).energy ≤ 0 := by
    simpa only [Particle.update, decide_eq_true_eq] using hdead
  rcases hd with hd | hd
  · exact hd
  · rw [henergy n] at hd
    linarith

/-- Witness for C9: a freshly spawned particle (energy 100) after 3 steps
with no fields and turbulence off. -/
theorem c9_energy_frame_witness :
    0 < pGood.energy ∧
      ((stepParticle fsW tbW 3 pGood).energy = pGood.energy ∧
        (((stepParticle fsW tbW 3 pGood).update (fsW 3) (tbW 3)).2 = true →
          (stepParticle fsW tbW 3 pGood).max_age
            < (stepParticle fsW tbW 3 pGood).age + 1)) :=
  ⟨by norm_num [pGood], c9_energy_frame fsW tbW pGood (by norm_num [pGood]) 3⟩

/-- C10: the charged flag only matters to rendering.  Every particle's
charge sign is +1 or -1 regardless of the charged draw, and `Particle.update`
is completely independent of the `charged` field: flipping it before a
step only flips it in the result, leaving every other field and the
removal flag unchanged (the magnetic force term reads `charge`, never
`charged`). -/
theorem c10_charged_flag_inert :
    (∀ (x y : ℝ) (k : ParticleKind) (sizeMult : ℝ) (d : SpawnDraws),
        (mkParticle x y k sizeMult d).charge = 1 ∨
          (mkParticle x y k sizeMult d).charge = -1) ∧
      (∀ (p : Particle) (b : Bool) (fields : List ForceField) (turb : Bool),
        Particle.update { p with charged := b } fields turb
          = ({ (Particle.update p fields turb).1 with charged := b },
             (Particle.update p fields turb).2)) := by
  constructor
  · intro x y k sizeMult d
    by_cases hc : d.chargeDraw
    · exact Or.inl (by simp [mkParticle, hc])
    · exact Or.inr (by simp [mkParticle, hc])
  · intro p b fields turb
    cases p
    rfl

end Muay
